import Mathlib

/-!
Verification development for the JWT access/refresh-token authentication and
account-lockout core of the Hackathon-II-Phase-III repository, together with
the frontend token-handling helpers (`decodeToken`, `isAuthenticated`) and the
axios response interceptor.

The backend Python implementation (`backend/src/services/auth_service.py`,
`user_service.py`, `middleware/auth.py`, `models/user.py`) is not part of the
source tree that ships with the repository snapshot; only its documentation
(`SECURITY_ASSESSMENT.md`, `AUTHENTICATION_GUIDE.md`, `REFACTORING_REPORT.md`)
and the specification survive.  Those backend components are therefore
modelled from the spec (section 4 of spec.md), with each such definition
marked `Modelled from the spec:` in its doc comment.  The frontend TypeScript
(`frontend/src/lib/auth.ts`, `frontend/src/lib/api-client.ts`) is present and
is embedded directly.
-/

deriving instance DecidableEq for Except

namespace AuthCore

/-- Modelled from the spec: configuration surface of §6
(`accessTokenTtl, refreshTokenTtl, hashWorkFactor, lockoutThreshold,
lockoutDuration, passwordMinLength`) plus the signing secret of §4.2.
Times and durations are in seconds. -/
structure AuthConfig where
  accessTokenTtl : Nat
  refreshTokenTtl : Nat
  hashWorkFactor : Nat
  lockoutThreshold : Nat
  lockoutDuration : Nat
  passwordMinLength : Nat
  secret : Nat
deriving Repr, DecidableEq

/-- Modelled from the spec: defaults named in §4 and in the backend docs —
threshold 5, lockout 30 minutes, access TTL 30 minutes, refresh TTL 7 days,
bcrypt work factor 12, minimum password length 8. -/
def defaultConfig : AuthConfig :=
  { accessTokenTtl := 1800
    refreshTokenTtl := 604800
    hashWorkFactor := 12
    lockoutThreshold := 5
    lockoutDuration := 1800
    passwordMinLength := 8
    secret := 424242 }

/-- Modelled from the spec: the closed error taxonomy of §7.
`AccountLocked` carries the remaining-time hint (seconds). -/
inductive AuthError where
  | DuplicateAccount
  | WeakPassword
  | InvalidCredentials
  | AccountLocked (remaining : Nat)
  | InvalidSignature
  | Expired
  | WrongTokenType
  | InvalidRefreshToken
  | Unauthorized
deriving Repr, DecidableEq

/-- Modelled from the spec: the Password Hasher's `hash` (§4.1, missing
`user_service.py`).  The digest is modelled as a tagged string that is
injective in the plaintext; real bcrypt properties (salting, work factor)
are outside a functional model. -/
def hash_password (plaintext : String) : String :=
  "$2b$12$" ++ plaintext

/-- Modelled from the spec: the Password Hasher's `verify` (§4.1, missing
`user_service.py`): compare the digest recomputed from the plaintext with
the stored digest; any digest that is not a well-formed hash output simply
fails the comparison, so `verify` returns `false` rather than throwing. -/
def verify_password (plaintext digest : String) : Bool :=
  digest == hash_password plaintext

/-- Modelled from the spec: the fixed dummy digest used by `login` for a
missing account to keep timing uniform (§4.5). -/
def dummyDigest : String :=
  hash_password "dummy-password-for-timing-uniformity"

/-- Modelled from the spec: the Account record of §3 / the `User` model
fields documented in SECURITY_ASSESSMENT.md (missing `models/user.py`). -/
structure Account where
  id : Nat
  email : String
  passwordHash : String
  failedLoginAttempts : Nat
  lockedUntil : Option Nat
  lastFailedLogin : Option Nat
  createdAt : Nat
deriving Repr, DecidableEq

/-- Modelled from the spec: the Credential Store of §6, read/written by
email. -/
def Store := List Account

/-- Whitespace removed by trimming. -/
def isTrimWs (c : Char) : Bool :=
  c == ' ' || c == '\t' || c == '\n' || c == '\r' || c.toNat = 11 || c.toNat = 12

/-- Drop leading and trailing whitespace from a character list. -/
def trimChars (cs : List Char) : List Char :=
  ((cs.dropWhile isTrimWs).reverse.dropWhile isTrimWs).reverse

/-- Modelled from the spec: email normalization — case-folded, trimmed
(§3, §4.5; REFACTORING_REPORT.md "Email Normalization"). -/
def normalizeEmail (e : String) : String :=
  String.mk ((trimChars e.data).map Char.toLower)

/-- Modelled from the spec: look up an account by (already normalized)
email. -/
def findAccount (store : Store) (email : String) : Option Account :=
  List.find? (fun a => a.email == email) store

/-- Modelled from the spec: write back the account stored under the given
email. -/
def updateAccount (store : Store) (email : String) (a' : Account) : Store :=
  List.map (fun a => if a.email == email then a' else a) store

/-- Modelled from the spec: the special characters required by the password
policy, as documented in SECURITY_ASSESSMENT.md §4. -/
def specialChars : String :=
  "!@#$%^&*()_+-=[]\x7b\x7d|;:,.<>?"

/-- Modelled from the spec: the password policy of §4.5 — configured minimum
length plus character-class diversity (uppercase, lowercase, digit, special
character, per the backend docs). -/
def meetsPasswordPolicy (cfg : AuthConfig) (password : String) : Bool :=
  decide (cfg.passwordMinLength ≤ password.data.length) &&
  password.data.any (fun c => c.isUpper) &&
  password.data.any (fun c => c.isLower) &&
  password.data.any (fun c => c.isDigit) &&
  password.data.any (fun c => specialChars.data.contains c)

/-- Modelled from the spec: a signed token structure carrying subject id,
type discriminator, issued-at and expires-at (§4.2, missing
`auth_service.py`).  `sig` models the HMAC signature over the claims. -/
structure Token where
  subjectId : Nat
  tokenType : String
  issuedAt : Nat
  expiresAt : Nat
  sig : Nat
deriving Repr, DecidableEq

/-- Modelled from the spec: deterministic signature over the token claims
with the process-wide secret (§4.2).  The concrete mixing function stands in
for HMAC-SHA256; the verifier only ever recomputes and compares it. -/
def signClaims (secret : Nat) (sub : Nat) (ty : String) (iat expAt : Nat) : Nat :=
  let tyCode := List.foldl (fun a c => a * 256 + c.toNat) 0 ty.data
  secret + 1000000007 * (sub + 1000003 * (iat + 999983 * (expAt + 911 * tyCode)))

/-- Modelled from the spec: `issueAccessToken(subjectId)` of §4.2 — a signed
token of type `"access"` valid for `accessTokenTtl` from `now`. -/
def issueAccessToken (cfg : AuthConfig) (sub : Nat) (now : Nat) : Token :=
  let expAt := now + cfg.accessTokenTtl
  { subjectId := sub, tokenType := "access", issuedAt := now, expiresAt := expAt
    sig := signClaims cfg.secret sub "access" now expAt }

/-- Modelled from the spec: `issueRefreshToken(subjectId)` of §4.2 — a signed
token of type `"refresh"` valid for `refreshTokenTtl` from `now`. -/
def issueRefreshToken (cfg : AuthConfig) (sub : Nat) (now : Nat) : Token :=
  let expAt := now + cfg.refreshTokenTtl
  { subjectId := sub, tokenType := "refresh", issuedAt := now, expiresAt := expAt
    sig := signClaims cfg.secret sub "refresh" now expAt }

/-- Modelled from the spec: the Token Verifier of §4.3 (missing
`auth_service.py` / `middleware/auth.py`).  Checks run in the fixed order
(1) signature, (2) expiry (`Expired` when now ≥ expiry), (3) type
discriminator against `expectedType`; on success returns the subject id. -/
def verifyToken (cfg : AuthConfig) (tok : Token) (expectedType : String)
    (now : Nat) : Except AuthError Nat :=
  if tok.sig ≠ signClaims cfg.secret tok.subjectId tok.tokenType tok.issuedAt tok.expiresAt then
    .error .InvalidSignature
  else if tok.expiresAt ≤ now then
    .error .Expired
  else if tok.tokenType ≠ expectedType then
    .error .WrongTokenType
  else
    .ok tok.subjectId

/-- Modelled from the spec: `authorize(accessToken)` of §4.5 — verify with
expected type `"access"`; any verification error maps to the single generic
`Unauthorized` (§7, missing `middleware/auth.py`). -/
def authorize (cfg : AuthConfig) (tok : Token) (now : Nat) : Except AuthError Nat :=
  match verifyToken cfg tok "access" now with
  | .ok sub => .ok sub
  | .error _ => .error .Unauthorized

/-- Modelled from the spec: `refresh(refreshToken)` of §4.5 — verify with
expected type `"refresh"`; on success issue a new access token only (no
rotation of the refresh token); any verification error maps to
`InvalidRefreshToken` (missing `api/auth.py` refresh endpoint). -/
def refreshTokenOp (cfg : AuthConfig) (tok : Token) (now : Nat) :
    Except AuthError Token :=
  match verifyToken cfg tok "refresh" now with
  | .ok sub => .ok (issueAccessToken cfg sub now)
  | .error _ => .error .InvalidRefreshToken

/-- Modelled from the spec: `register(email, password)` of §4.5 (missing
`api/auth.py` / `user_service.py`): normalize the email, fail with
`DuplicateAccount` if present, fail with `WeakPassword` if the policy is not
met, otherwise hash the password and create the account with counter 0 and
no lockout-expiry. -/
def register (cfg : AuthConfig) (store : Store) (now : Nat)
    (email password : String) : Except AuthError Account × Store :=
  let e := normalizeEmail email
  match findAccount store e with
  | some _ => (.error .DuplicateAccount, store)
  | none =>
    if meetsPasswordPolicy cfg password then
      let acct : Account :=
        { id := store.length
          email := e
          passwordHash := hash_password password
          failedLoginAttempts := 0
          lockedUntil := none
          lastFailedLogin := none
          createdAt := now }
      (.ok acct, acct :: store)
    else
      (.error .WeakPassword, store)

/-- Modelled from the spec: whether the account is in state `Locked` at the
injected clock value — lockout-expiry set and still in the future (§4.4,
missing `check_account_lockout`). -/
def isLocked (acct : Account) (now : Nat) : Bool :=
  match acct.lockedUntil with
  | some t => decide (now < t)
  | none => false

/-- Modelled from the spec: result of a login attempt — on success the
issued access/refresh token pair plus the subject id. -/
structure LoginOk where
  accessToken : Token
  refreshToken : Token
  userId : Nat
deriving Repr, DecidableEq

/-- Modelled from the spec: outcome of `login`, including the updated store
and the number of password-hash comparisons performed (the model's proxy for
the hashing cost that the timing-uniformity and no-extra-hashing-under-
lockout requirements of §4.4/§4.5 speak about). -/
structure LoginResult where
  outcome : Except AuthError LoginOk
  store : Store
  hashComparisons : Nat

/-- Modelled from the spec: `login(email, password)` of §4.5 together with
the Lockout Policy Engine of §4.4 (missing `auth_service.py`):
normalize the email; for a missing account perform a dummy comparison
against the fixed dummy digest and fail with `InvalidCredentials`; while
`Locked`, fail immediately with `AccountLocked` (remaining time) without
verifying the password and without touching the store; once the lockout has
expired, lazily treat the account as `Open` again, resetting the counter;
then verify the password — on success reset the lockout state and issue both
tokens, on failure increment the counter and set lockout-expiry =
now + lockoutDuration on the attempt that reaches the threshold. -/
def login (cfg : AuthConfig) (store : Store) (now : Nat)
    (email password : String) : LoginResult :=
  let e := normalizeEmail email
  match findAccount store e with
  | none =>
    let _dummy := verify_password password dummyDigest
    { outcome := .error .InvalidCredentials, store := store, hashComparisons := 1 }
  | some acct =>
    if isLocked acct now then
      match acct.lockedUntil with
      | some t =>
        { outcome := .error (.AccountLocked (t - now)), store := store
          hashComparisons := 0 }
      | none =>
        { outcome := .error (.AccountLocked 0), store := store
          hashComparisons := 0 }
    else
      let acct0 :=
        if acct.lockedUntil.isSome then
          { acct with failedLoginAttempts := 0, lockedUntil := none }
        else acct
      if verify_password password acct0.passwordHash then
        let acct' := { acct0 with failedLoginAttempts := 0, lockedUntil := none }
        { outcome := .ok
            { accessToken := issueAccessToken cfg acct'.id now
              refreshToken := issueRefreshToken cfg acct'.id now
              userId := acct'.id }
          store := updateAccount store e acct'
          hashComparisons := 1 }
      else
        let c := acct0.failedLoginAttempts + 1
        let acct' :=
          if cfg.lockoutThreshold ≤ c then
            { acct0 with failedLoginAttempts := c
                         lockedUntil := some (now + cfg.lockoutDuration)
                         lastFailedLogin := some now }
          else
            { acct0 with failedLoginAttempts := c
                         lastFailedLogin := some now }
        { outcome := .error .InvalidCredentials
          store := updateAccount store e acct'
          hashComparisons := 1 }

/-!
Concrete scenario of §8 of the spec: register `alice@example.com` with
`Secur3Pass!`, then fail logins with a wrong password at seconds
10, 11, 12, 13, 14.
-/

/-- The store right after registering alice at time 0. -/
def aliceRegistered : Store :=
  (register defaultConfig [] 0 "alice@example.com" "Secur3Pass!").2

/-- One failed login attempt for alice with a wrong password at time `t`. -/
def failOnce (st : Store) (t : Nat) : Store :=
  (login defaultConfig st t "alice@example.com" "wrongPW").store

/-- Alice's store after four consecutive failed attempts (counter 4, still
`Open`). -/
def aliceAfter4Fails : Store :=
  failOnce (failOnce (failOnce (failOnce aliceRegistered 10) 11) 12) 13

/-- Alice's store after five consecutive failed attempts: the account is
`Locked` until second 14 + 1800 = 1814. -/
def aliceAfter5Fails : Store :=
  failOnce aliceAfter4Fails 14

/-- Alice's account record after four failed attempts, as stored. -/
def acctAlice4 : Account :=
  { id := 0
    email := "alice@example.com"
    passwordHash := hash_password "Secur3Pass!"
    failedLoginAttempts := 4
    lockedUntil := none
    lastFailedLogin := some 13
    createdAt := 0 }

/-- Alice's account record after five failed attempts, as stored. -/
def acctAliceLocked : Account :=
  { id := 0
    email := "alice@example.com"
    passwordHash := hash_password "Secur3Pass!"
    failedLoginAttempts := 5
    lockedUntil := some 1814
    lastFailedLogin := some 14
    createdAt := 0 }

/-- Alice's account record right after registration. -/
def acctAlice0 : Account :=
  { id := 0
    email := "alice@example.com"
    passwordHash := hash_password "Secur3Pass!"
    failedLoginAttempts := 0
    lockedUntil := none
    lastFailedLogin := none
    createdAt := 0 }

/-- The account record `register` creates on success (counter 0, no
lockout-expiry, normalized email, hashed password). -/
def registeredAccount (store : Store) (now : Nat) (email password : String) : Account :=
  { id := store.length
    email := normalizeEmail email
    passwordHash := hash_password password
    failedLoginAttempts := 0
    lockedUntil := none
    lastFailedLogin := none
    createdAt := now }

end AuthCore

namespace FrontendAuth

/-!
Embedding of `frontend/src/lib/auth.ts` (`decodeToken`, `isAuthenticated`)
and the axios response interceptor of `frontend/src/lib/api-client.ts`.
String manipulation is carried out on `List Char` so that every definition
reduces in the kernel; the JS primitives (`split('.')`, `startsWith`,
`atob`, `decodeURIComponent`, `JSON.parse`) are embedded as executable
functions returning `Option` where the JS version throws.  `JSON.parse` is
embedded for the subset of JSON the token pipeline actually carries: a flat
object whose values are escape-free strings or integers (the shape of every
JWT payload the backend issues); any other input is treated as a parse
failure.
-/

/-- `prefixChars ps cs`: does `cs` start with `ps`?  Embeds the JS
`token.startsWith('Bearer ')` test character by character. -/
def prefixChars : List Char → List Char → Bool
  | [], _ => true
  | _ :: _, [] => false
  | p :: ps, c :: cs => p == c && prefixChars ps cs

/-- Embeds `token.startsWith('Bearer ') ? token.substring(7) : token`. -/
def stripBearerChars (cs : List Char) : List Char :=
  if prefixChars "Bearer ".data cs then cs.drop 7 else cs

/-- Embeds the JS `cleanToken.split('.')`: splits into the (possibly empty)
groups between the dots.  `splitOnDot "".data = [[]]` just as in JS. -/
def splitOnDot : List Char → List (List Char)
  | [] => [[]]
  | c :: rest =>
    let r := splitOnDot rest
    if c = '.' then [] :: r
    else
      match r with
      | g :: gs => (c :: g) :: gs
      | [] => [[c]]

/-- Value of one base64 alphabet character, `none` outside the alphabet
(the case in which JS `atob` throws `InvalidCharacterError`). -/
def base64CharVal (c : Char) : Option Nat :=
  if 'A' ≤ c ∧ c ≤ 'Z' then some (c.toNat - 65)
  else if 'a' ≤ c ∧ c ≤ 'z' then some (c.toNat - 71)
  else if '0' ≤ c ∧ c ≤ '9' then some (c.toNat + 4)
  else if c = '+' then some 62
  else if c = '/' then some 63
  else none

/-- Forgiving-base64 padding removal: when the length is a multiple of four,
up to two trailing `=` characters are dropped (as JS `atob` does). -/
def stripBase64Padding (cs : List Char) : List Char :=
  if cs.length % 4 = 0 then
    match cs.reverse with
    | '=' :: '=' :: rest => rest.reverse
    | '=' :: rest => rest.reverse
    | _ => cs
  else cs

/-- Reassemble 6-bit groups into bytes, discarding the final partial byte —
the bit layout JS `atob` produces. -/
def sextetsToBytes : List Nat → List Nat
  | a :: b :: c :: d :: rest =>
    (a * 4 + b / 16) :: ((b % 16) * 16 + c / 4) :: ((c % 4) * 64 + d) ::
      sextetsToBytes rest
  | [a, b, c] => [a * 4 + b / 16, (b % 16) * 16 + c / 4]
  | [a, b] => [a * 4 + b / 16]
  | [_] => []
  | [] => []

/-- Embeds JS `atob`: base64-decode to a list of bytes, `none` where `atob`
throws (character outside the alphabet, or length ≡ 1 mod 4 after padding
removal). -/
def atobChars (cs : List Char) : Option (List Nat) :=
  let cs := stripBase64Padding cs
  if cs.length % 4 = 1 then none
  else
    match List.mapM base64CharVal cs with
    | some sextets => some (sextetsToBytes sextets)
    | none => none

/-- Strict UTF-8 decoding of a byte list, `none` on any ill-formed sequence —
this embeds the `decodeURIComponent(... '%xx' ...)` step of `decodeToken`,
which percent-encodes the bytes from `atob` and throws `URIError` exactly
when they are not valid UTF-8. -/
def utf8Decode : List Nat → Option (List Char)
  | [] => some []
  | b1 :: rest =>
    if b1 < 128 then
      (utf8Decode rest).map (fun cs => Char.ofNat b1 :: cs)
    else if 194 ≤ b1 ∧ b1 ≤ 223 then
      match rest with
      | b2 :: rest2 =>
        if 128 ≤ b2 ∧ b2 ≤ 191 then
          (utf8Decode rest2).map
            (fun cs => Char.ofNat ((b1 - 192) * 64 + (b2 - 128)) :: cs)
        else none
      | [] => none
    else if 224 ≤ b1 ∧ b1 ≤ 239 then
      match rest with
      | b2 :: b3 :: rest3 =>
        let lo2 := if b1 = 224 then 160 else 128
        let hi2 := if b1 = 237 then 159 else 191
        if lo2 ≤ b2 ∧ b2 ≤ hi2 ∧ 128 ≤ b3 ∧ b3 ≤ 191 then
          (utf8Decode rest3).map
            (fun cs =>
              Char.ofNat ((b1 - 224) * 4096 + (b2 - 128) * 64 + (b3 - 128)) :: cs)
        else none
      | _ => none
    else if 240 ≤ b1 ∧ b1 ≤ 244 then
      match rest with
      | b2 :: b3 :: b4 :: rest4 =>
        let lo2 := if b1 = 240 then 144 else 128
        let hi2 := if b1 = 244 then 143 else 191
        if lo2 ≤ b2 ∧ b2 ≤ hi2 ∧ 128 ≤ b3 ∧ b3 ≤ 191 ∧ 128 ≤ b4 ∧ b4 ≤ 191 then
          (utf8Decode rest4).map
            (fun cs =>
              Char.ofNat ((b1 - 240) * 262144 + (b2 - 128) * 4096 +
                (b3 - 128) * 64 + (b4 - 128)) :: cs)
        else none
      | _ => none
    else none

/-- The JWT payload fields the frontend declares for `decodeToken`
(`{ sub: string; exp: number; user_id?: number }`); each is optional since
`JSON.parse` does not enforce the declared shape, and `isAuthenticated`
behaves as if a missing `exp` compares false. -/
structure JwtPayload where
  sub : Option String
  exp : Option Int
  user_id : Option Int
deriving Repr, DecidableEq

/-- A JSON value in the embedded subset: a string or an integer. -/
inductive JsonValue where
  | str (s : String)
  | int (i : Int)
deriving Repr, DecidableEq

/-- JSON insignificant whitespace. -/
def isJsonWs (c : Char) : Bool :=
  c == ' ' || c == '\t' || c == '\n' || c == '\r'

/-- Skip JSON whitespace. -/
def skipWs : List Char → List Char
  | c :: rest => if isJsonWs c then skipWs rest else c :: rest
  | [] => []

/-- Scan the body of a JSON string up to the closing quote; escapes and
control characters fall outside the embedded subset. -/
def scanJsonString : List Char → List Char → Option (String × List Char)
  | [], _ => none
  | c :: rest, acc =>
    if c.toNat = 34 then some (String.mk acc.reverse, rest)
    else if c.toNat = 92 ∨ c.toNat < 32 then none
    else scanJsonString rest (c :: acc)

/-- Parse a JSON string literal (opening quote, body, closing quote). -/
def parseJsonString (cs : List Char) : Option (String × List Char) :=
  match cs with
  | c :: rest => if c.toNat = 34 then scanJsonString rest [] else none
  | [] => none

/-- Consume a run of decimal digits, accumulating their value. -/
def scanDigits : List Char → Nat → Nat × List Char
  | c :: rest, acc =>
    if c.isDigit then scanDigits rest (acc * 10 + (c.toNat - 48))
    else (acc, c :: rest)
  | [], acc => (acc, [])

/-- Parse a JSON integer (optional minus sign, at least one digit). -/
def parseJsonInt (cs : List Char) : Option (Int × List Char) :=
  match cs with
  | c :: rest =>
    if c = '-' then
      match rest with
      | d :: _ =>
        if d.isDigit then
          let (n, rest') := scanDigits rest 0
          some (-(n : Int), rest')
        else none
      | [] => none
    else if c.isDigit then
      let (n, rest') := scanDigits (c :: rest) 0
      some ((n : Int), rest')
    else none
  | [] => none

/-- Parse one `"key" : value` member. -/
def parseJsonMember (cs : List Char) : Option ((String × JsonValue) × List Char) :=
  match parseJsonString cs with
  | none => none
  | some (k, cs1) =>
    match skipWs cs1 with
    | c :: cs3 =>
      if c = ':' then
        let cs4 := skipWs cs3
        match parseJsonString cs4 with
        | some (s, cs5) => some ((k, .str s), cs5)
        | none =>
          match parseJsonInt cs4 with
          | some (i, cs5) => some ((k, .int i), cs5)
          | none => none
      else none
    | [] => none

/-- Parse a comma-separated member list; the fuel argument (instantiated
with the input length) makes the recursion structural. -/
def parseJsonMembers (fuel : Nat) (cs : List Char)
    (acc : List (String × JsonValue)) :
    Option (List (String × JsonValue) × List Char) :=
  match fuel with
  | 0 => none
  | fuel + 1 =>
    match parseJsonMember cs with
    | none => none
    | some (p, cs1) =>
      match skipWs cs1 with
      | c :: cs3 =>
        if c = ',' then parseJsonMembers fuel (skipWs cs3) (p :: acc)
        else some ((p :: acc).reverse, c :: cs3)
      | [] => some ((p :: acc).reverse, [])

/-- Parse a complete JSON object (the embedded subset of `JSON.parse`):
braces around an optionally empty member list, nothing but whitespace
before or after. -/
def parseJsonObject (s : String) : Option (List (String × JsonValue)) :=
  match skipWs s.data with
  | c :: cs1 =>
    if c.toNat = 123 then
      match skipWs cs1 with
      | c2 :: cs3 =>
        if c2.toNat = 125 then
          match skipWs cs3 with
          | [] => some []
          | _ => none
        else
          match parseJsonMembers (cs1.length + 1) (skipWs cs1) [] with
          | some (ms, cs4) =>
            match cs4 with
            | c3 :: cs5 =>
              if c3.toNat = 125 then
                match skipWs cs5 with
                | [] => some ms
                | _ => none
              else none
            | [] => none
          | none => none
      | [] => none
    else none
  | [] => none

/-- Project the recognized payload fields out of the parsed members.
Later duplicates win, as in `JSON.parse`. -/
def payloadOfMembers (ms : List (String × JsonValue)) : JwtPayload :=
  List.foldl
    (fun p kv =>
      match kv with
      | ("sub", .str s) => { p with sub := some s }
      | ("exp", .int i) => { p with exp := some i }
      | ("user_id", .int i) => { p with user_id := some i }
      | _ => p)
    { sub := none, exp := none, user_id := none } ms

/-- `JSON.parse` step of `decodeToken`, restricted to the embedded subset
and projected onto the declared payload fields. -/
def parsePayloadJson (s : String) : Option JwtPayload :=
  (parseJsonObject s).map payloadOfMembers

/-- The payload-part pipeline of `decodeToken`: reject an empty payload
part, translate the base64url alphabet to the base64 one, then `atob`,
UTF-8 decoding and `JSON.parse`, any of whose failures the JS code catches
and converts to `null`. -/
def decodePayloadPart (base64Url : List Char) : Option JwtPayload :=
  if base64Url = [] then none
  else
    let base64 := base64Url.map
      (fun c => if c = '-' then '+' else if c = '_' then '/' else c)
    match atobChars base64 with
    | none => none
    | some bytes =>
      match utf8Decode bytes with
      | none => none
      | some chars => parsePayloadJson (String.mk chars)

/-- Embeds `decodeToken` of `frontend/src/lib/auth.ts`: `null` for a null
(or empty, hence falsy) token; strip a `"Bearer "` prefix; split on dots and
require exactly three parts; then run the payload part — and only the
payload part — through `decodePayloadPart`. -/
def decodeToken (token : Option String) : Option JwtPayload :=
  match token with
  | none => none
  | some t =>
    if t.data = [] then none
    else
      let tokenParts := splitOnDot (stripBearerChars t.data)
      if tokenParts.length ≠ 3 then none
      else
        match tokenParts with
        | _ :: base64Url :: _ => decodePayloadPart base64Url
        | _ => none

/-- The browser `localStorage`, as a partial map from keys to values. -/
def LStorage := String → Option String

/-- Embeds `isAuthenticated` of `frontend/src/lib/auth.ts`: false when no
access token is stored (or the stored value is falsy), false when
`decodeToken` yields `null`, otherwise `decoded.exp > currentTime`
(comparison against a missing `exp` is false, as in JS). -/
def isAuthenticated (store : LStorage) (now : Int) : Bool :=
  match store "access_token" with
  | none => false
  | some token =>
    if token.data = [] then false
    else
      match decodeToken (some token) with
      | none => false
      | some decoded =>
        match decoded.exp with
        | some e => decide (now < e)
        | none => false

/-- Write a key in `localStorage` (`localStorage.setItem`). -/
def lsSetItem (st : LStorage) (k v : String) : LStorage :=
  fun k' => if k' = k then some v else st k'

/-- Delete a key from `localStorage` (`localStorage.removeItem`). -/
def lsRemoveItem (st : LStorage) (k : String) : LStorage :=
  fun k' => if k' = k then none else st k'

/-- Whether the request ultimately resolves or rejects. -/
inductive ReqResult where
  | success
  | rejected
deriving Repr, DecidableEq

/-- Observable outcome of running the response interceptor: the final
promise state, the resulting `localStorage`, how many calls to
`POST /api/auth/refresh` were made, and whether the browser was redirected
to `/login`. -/
structure InterceptOutcome where
  result : ReqResult
  store : LStorage
  refreshCalls : Nat
  redirectedToLogin : Bool

/-- The server's behaviour as seen by one pass through the interceptor:
whether the refresh call succeeds, the new access token it returns, and the
HTTP status the retried original request comes back with. -/
structure ServerEnv where
  refreshOk : Bool
  newAccessToken : String
  retryStatus : Nat

/-- Embeds the response-error interceptor of
`frontend/src/lib/api-client.ts`.  `status` is the HTTP status of the
failed response and `retry` the `_retry` flag on the request config.  On a
first 401 (`_retry` not yet set) the flag is set and: with a stored refresh
token, the refresh endpoint is called — on success the new access token is
stored and the original request is retried through `apiClient`, so an error
on the retry re-enters this same interceptor with `_retry = true`; on
refresh failure the three stored keys are removed and the browser is sent
to `/login`.  With no stored refresh token the three keys are removed and
the browser is sent to `/login`.  Every other error is rejected
unchanged. -/
def responseInterceptorOnError (env : ServerEnv) (status : Nat) (retry : Bool)
    (st : LStorage) : InterceptOutcome :=
  if h : status = 401 ∧ retry = false then
    match st "refresh_token" with
    | some _refreshToken =>
      if env.refreshOk then
        let st1 := lsSetItem st "access_token" env.newAccessToken
        let sub :=
          if env.retryStatus < 400 then
            { result := .success, store := st1, refreshCalls := 0
              redirectedToLogin := false }
          else
            responseInterceptorOnError env env.retryStatus true st1
        { sub with refreshCalls := sub.refreshCalls + 1 }
      else
        let st1 := lsRemoveItem
          (lsRemoveItem (lsRemoveItem st "access_token") "refresh_token")
          "user_id"
        { result := .rejected, store := st1, refreshCalls := 1
          redirectedToLogin := true }
    | none =>
      let st1 := lsRemoveItem
        (lsRemoveItem (lsRemoveItem st "access_token") "refresh_token")
        "user_id"
      { result := .rejected, store := st1, refreshCalls := 0
        redirectedToLogin := true }
  else
    { result := .rejected, store := st, refreshCalls := 0
      redirectedToLogin := false }
termination_by (if retry then 0 else 1)
decreasing_by simp [h.2]

/-- A `localStorage` holding a single key. -/
def singleStore (k v : String) : LStorage :=
  fun k' => if k' = k then some v else none

end FrontendAuth

open AuthCore FrontendAuth

/-! ### Helper lemmas (shared; not claim theorems) -/

/-- Helper: a token whose signature does not match fails verification. -/
theorem verifyToken_badSig (cfg : AuthConfig) (tok : Token) (ty : String) (now : Nat)
    (h : tok.sig ≠ signClaims cfg.secret tok.subjectId tok.tokenType tok.issuedAt tok.expiresAt) :
    verifyToken cfg tok ty now = .error .InvalidSignature := by
  simp [verifyToken, h]

/-- Helper: a correctly signed token that has expired fails with `Expired`. -/
theorem verifyToken_expired (cfg : AuthConfig) (tok : Token) (ty : String) (now : Nat)
    (h : tok.sig = signClaims cfg.secret tok.subjectId tok.tokenType tok.issuedAt tok.expiresAt)
    (hexp : tok.expiresAt ≤ now) :
    verifyToken cfg tok ty now = .error .Expired := by
  simp [verifyToken, h, hexp]

/-- Helper: a correctly signed, unexpired token of the wrong type fails with
`WrongTokenType`. -/
theorem verifyToken_wrongType (cfg : AuthConfig) (tok : Token) (ty : String) (now : Nat)
    (h : tok.sig = signClaims cfg.secret tok.subjectId tok.tokenType tok.issuedAt tok.expiresAt)
    (hexp : now < tok.expiresAt) (hty : tok.tokenType ≠ ty) :
    verifyToken cfg tok ty now = .error .WrongTokenType := by
  simp [verifyToken, h, hty, Nat.not_le_of_lt hexp]

/-- Helper: `authorize` maps every verification error to `Unauthorized`. -/
theorem authorize_err (cfg : AuthConfig) (tok : Token) (now : Nat) (e : AuthError)
    (hv : verifyToken cfg tok "access" now = .error e) :
    authorize cfg tok now = .error .Unauthorized := by
  unfold authorize
  rw [hv]

/-- Helper: an unexpired refresh token fails `"access"`-verification with
`WrongTokenType` and is rejected by `authorize`. -/
theorem verifyToken_refresh_as_access (cfg : AuthConfig) (sub iat now : Nat)
    (hlt : now < iat + cfg.refreshTokenTtl) :
    verifyToken cfg (issueRefreshToken cfg sub iat) "access" now = .error .WrongTokenType ∧
    authorize cfg (issueRefreshToken cfg sub iat) now = .error .Unauthorized := by
  have hv : verifyToken cfg (issueRefreshToken cfg sub iat) "access" now =
      .error .WrongTokenType :=
    verifyToken_wrongType cfg (issueRefreshToken cfg sub iat) "access" now rfl hlt
      (show ("refresh" : String) ≠ "access" by decide)
  exact ⟨hv, authorize_err cfg (issueRefreshToken cfg sub iat) now .WrongTokenType hv⟩

/-- Helper: `refresh` succeeds exactly when `"refresh"`-verification does. -/
theorem refresh_iff_verify (cfg : AuthConfig) (tok : Token) (now : Nat) :
    (∃ sub, verifyToken cfg tok "refresh" now = .ok sub) ↔
      (∃ newTok, refreshTokenOp cfg tok now = .ok newTok) := by
  constructor
  · rintro ⟨sub, h⟩
    refine ⟨issueAccessToken cfg sub now, ?_⟩
    unfold refreshTokenOp
    rw [h]
  · rintro ⟨newTok, h⟩
    cases hv : verifyToken cfg tok "refresh" now with
    | ok sub => exact ⟨sub, rfl⟩
    | error e =>
      unfold refreshTokenOp at h
      rw [hv] at h
      exact absurd h (by simp)

/-- Helper: on successful verification, `refresh` issues exactly one new
access token. -/
theorem refresh_ok_issues_access (cfg : AuthConfig) (tok : Token) (now : Nat)
    (sub : Nat) (h : verifyToken cfg tok "refresh" now = .ok sub) :
    refreshTokenOp cfg tok now = .ok (issueAccessToken cfg sub now) ∧
    (issueAccessToken cfg sub now).tokenType = "access" := by
  have h1 : refreshTokenOp cfg tok now = .ok (issueAccessToken cfg sub now) := by
    unfold refreshTokenOp
    rw [h]
  exact ⟨h1, rfl⟩

/-- Helper: every verification failure makes `refresh` fail with
`InvalidRefreshToken`. -/
theorem refresh_err (cfg : AuthConfig) (tok : Token) (now : Nat)
    (e : AuthError) (h : verifyToken cfg tok "refresh" now = .error e) :
    refreshTokenOp cfg tok now = .error .InvalidRefreshToken := by
  unfold refreshTokenOp
  rw [h]

/-- Helper: a valid (unexpired) access token presented to `refresh` is
rejected with `InvalidRefreshToken`. -/
theorem refresh_rejects_access (cfg : AuthConfig) (now sub iat : Nat)
    (hlt : now < iat + cfg.accessTokenTtl) :
    refreshTokenOp cfg (issueAccessToken cfg sub iat) now = .error .InvalidRefreshToken := by
  have hv : verifyToken cfg (issueAccessToken cfg sub iat) "refresh" now =
      .error .WrongTokenType :=
    verifyToken_wrongType cfg (issueAccessToken cfg sub iat) "refresh" now rfl hlt
      (show ("access" : String) ≠ "refresh" by decide)
  exact refresh_err cfg (issueAccessToken cfg sub iat) now .WrongTokenType hv

/-- Helper: an account with a future lockout-expiry is `Locked`. -/
theorem isLocked_some_lt (acct : Account) (now t : Nat)
    (hlock : acct.lockedUntil = some t) (hnow : now < t) : isLocked acct now = true := by
  unfold isLocked
  rw [hlock]
  exact decide_eq_true hnow

/-- Helper: an account whose lockout-expiry has passed is not `Locked`. -/
theorem isLocked_some_ge (acct : Account) (now t : Nat)
    (hlock : acct.lockedUntil = some t) (hexp : t ≤ now) : isLocked acct now = false := by
  unfold isLocked
  rw [hlock]
  exact decide_eq_false (Nat.not_lt.mpr hexp)

/-- Helper: an account with no lockout-expiry is not `Locked`. -/
theorem isLocked_none (acct : Account) (now : Nat)
    (hlock : acct.lockedUntil = none) : isLocked acct now = false := by
  unfold isLocked
  rw [hlock]

/-- Helper: login for a missing (normalized) email fails with
`InvalidCredentials` after one (dummy) hash comparison, leaving the store
unchanged. -/
theorem login_missing_email (cfg : AuthConfig) (store : Store) (now : Nat)
    (email password : String)
    (hmiss : findAccount store (normalizeEmail email) = none) :
    login cfg store now email password =
      { outcome := .error .InvalidCredentials, store := store, hashComparisons := 1 } := by
  simp only [login, hmiss]

/-- Helper: login with a wrong password on an unlocked account fails with
`InvalidCredentials` after one hash comparison. -/
theorem login_wrong_password (cfg : AuthConfig) (store : Store) (now : Nat)
    (email password : String) (acct : Account)
    (hfind : findAccount store (normalizeEmail email) = some acct)
    (hnl : isLocked acct now = false)
    (hpw : verify_password password acct.passwordHash = false) :
    (login cfg store now email password).outcome = .error .InvalidCredentials ∧
    (login cfg store now email password).hashComparisons = 1 := by
  cases hcase : acct.lockedUntil with
  | none => constructor <;> simp only [login, hfind, hnl, hcase, Option.isSome_none,
      Bool.false_eq_true, if_false, hpw]
  | some t => constructor <;> simp only [login, hfind, hnl, hcase, Option.isSome_some,
      if_true, hpw, Bool.false_eq_true, if_false]

/-- Helper: login while `Locked` is rejected with `AccountLocked` carrying
the remaining time, with no hash comparison and no store change at all. -/
theorem login_locked (cfg : AuthConfig) (store : Store) (now : Nat)
    (email password : String) (acct : Account) (t : Nat)
    (hfind : findAccount store (normalizeEmail email) = some acct)
    (hlock : acct.lockedUntil = some t)
    (hnow : now < t) :
    login cfg store now email password =
      { outcome := .error (.AccountLocked (t - now)), store := store, hashComparisons := 0 } := by
  have hl := isLocked_some_lt acct now t hlock hnow
  simp only [login, hfind, hl, hlock, if_true]

/-- Helper: once the lockout-expiry has passed, a correct-password login
succeeds and stores the account with counter 0 and no lockout-expiry. -/
theorem login_expired_lock_success (cfg : AuthConfig) (store : Store) (now : Nat)
    (email password : String) (acct : Account) (t : Nat)
    (hfind : findAccount store (normalizeEmail email) = some acct)
    (hlock : acct.lockedUntil = some t)
    (hexp : t ≤ now)
    (hpw : verify_password password acct.passwordHash = true) :
    (login cfg store now email password).outcome =
      .ok { accessToken := issueAccessToken cfg acct.id now
            refreshToken := issueRefreshToken cfg acct.id now
            userId := acct.id } ∧
    (login cfg store now email password).store =
      updateAccount store (normalizeEmail email)
        { acct with failedLoginAttempts := 0, lockedUntil := none } := by
  have hnl := isLocked_some_ge acct now t hlock hexp
  constructor <;> simp only [login, hfind, hnl, Bool.false_eq_true, if_false,
    hlock, Option.isSome_some, if_true, hpw]

/-- Helper: the failed attempt that brings the counter to the threshold
locks the account until now + lockoutDuration. -/
theorem login_threshold_locks (cfg : AuthConfig) (store : Store) (now : Nat)
    (email wrongPassword : String) (acct : Account)
    (hfind : findAccount store (normalizeEmail email) = some acct)
    (hnone : acct.lockedUntil = none)
    (hcount : acct.failedLoginAttempts + 1 = cfg.lockoutThreshold)
    (hpw : verify_password wrongPassword acct.passwordHash = false) :
    (login cfg store now email wrongPassword).outcome = .error .InvalidCredentials ∧
    (login cfg store now email wrongPassword).store =
      updateAccount store (normalizeEmail email)
        { acct with failedLoginAttempts := cfg.lockoutThreshold
                    lockedUntil := some (now + cfg.lockoutDuration)
                    lastFailedLogin := some now } := by
  have hnl := isLocked_none acct now hnone
  constructor <;> simp only [login, hfind, hnl, Bool.false_eq_true, if_false,
    hnone, Option.isSome_none, hpw, hcount, Nat.le_refl, if_true]

/-- Helper: registering an email already present (after normalization)
fails with `DuplicateAccount` and leaves the store unchanged. -/
theorem register_duplicate (cfg : AuthConfig) (store : Store) (now : Nat)
    (email password : String) (acct : Account)
    (hfind : findAccount store (normalizeEmail email) = some acct) :
    register cfg store now email password = (.error .DuplicateAccount, store) := by
  simp only [register, hfind]

/-- Helper: registering with a policy-violating password fails with
`WeakPassword` and leaves the store unchanged. -/
theorem register_weak (cfg : AuthConfig) (store : Store) (now : Nat)
    (email password : String)
    (hmiss : findAccount store (normalizeEmail email) = none)
    (hpol : meetsPasswordPolicy cfg password = false) :
    register cfg store now email password = (.error .WeakPassword, store) := by
  simp only [register, hmiss, hpol, Bool.false_eq_true, if_false]

/-- Helper: registering a fresh email with a policy-conforming password
creates the account with counter 0 and no lockout-expiry. -/
theorem register_success (cfg : AuthConfig) (store : Store) (now : Nat)
    (email password : String)
    (hmiss : findAccount store (normalizeEmail email) = none)
    (hpol : meetsPasswordPolicy cfg password = true) :
    register cfg store now email password =
      (.ok (registeredAccount store now email password),
       registeredAccount store now email password :: store) := by
  simp only [register, hmiss, hpol, if_true, registeredAccount]

/-- Helper: a non-empty token that does not split into exactly three parts
decodes to `null`. -/
theorem decode_not_three_parts (t : String)
    (h1 : t.data ≠ [])
    (h2 : (splitOnDot (stripBearerChars t.data)).length ≠ 3) :
    decodeToken (some t) = none := by
  simp only [decodeToken, if_neg h1, if_pos h2]

/-- Helper: on a three-part token, `decodeToken` is exactly the payload
pipeline applied to the middle part. -/
theorem decode_split3 (t : String) (h p s : List Char)
    (h1 : t.data ≠ [])
    (hsplit : splitOnDot (stripBearerChars t.data) = [h, p, s]) :
    decodeToken (some t) = decodePayloadPart p := by
  simp only [decodeToken, if_neg h1, hsplit, List.length_cons, List.length_nil]
  simp

/-- Helper: an empty payload part decodes to `null`. -/
theorem decode_empty_payload (t : String) (h s : List Char)
    (h1 : t.data ≠ [])
    (hsplit : splitOnDot (stripBearerChars t.data) = [h, [], s]) :
    decodeToken (some t) = none := by
  rw [decode_split3 t h [] s h1 hsplit]
  simp [decodePayloadPart]

/-- Helper: with no stored access token, `isAuthenticated` is false. -/
theorem iA_no_token (store : LStorage) (now : Int)
    (h : store "access_token" = none) : isAuthenticated store now = false := by
  simp only [isAuthenticated, h]

/-- Helper: with an undecodable stored token, `isAuthenticated` is false. -/
theorem iA_undecodable (store : LStorage) (now : Int) (token : String)
    (h : store "access_token" = some token)
    (hdec : decodeToken (some token) = none) : isAuthenticated store now = false := by
  by_cases he : token.data = []
  · simp [isAuthenticated, h, he]
  · simp [isAuthenticated, h, he, hdec]

/-- Helper: with a decoded payload whose `exp` is not in the future,
`isAuthenticated` is false. -/
theorem iA_expired (store : LStorage) (now : Int) (token : String)
    (payload : JwtPayload) (e : Int)
    (h : store "access_token" = some token)
    (hdec : decodeToken (some token) = some payload)
    (hexp : payload.exp = some e)
    (hle : e ≤ now) : isAuthenticated store now = false := by
  have he : token.data ≠ [] := by
    intro he
    rw [show decodeToken (some token) = none by simp [decodeToken, he]] at hdec
    exact Option.noConfusion hdec
  simp [isAuthenticated, h, he, hdec, hexp, not_lt.mpr hle]

/-- Helper: a 401 arriving on a request whose `_retry` flag is already set
skips the guarded block entirely: the error is rejected unchanged, with no
refresh call, no storage change and no redirect. -/
theorem interceptor_second_pass (env : ServerEnv) (status : Nat) (st : LStorage) :
    responseInterceptorOnError env status true st =
      { result := .rejected, store := st, refreshCalls := 0, redirectedToLogin := false } := by
  unfold responseInterceptorOnError
  simp

/-- Helper: the interceptor never calls the refresh endpoint more than
once, on any path. -/
theorem interceptor_refresh_at_most_once (env : ServerEnv) (status : Nat) (retry : Bool)
    (st : LStorage) :
    (responseInterceptorOnError env status retry st).refreshCalls ≤ 1 := by
  unfold responseInterceptorOnError
  split
  · rename_i hcond
    cases hrt : st "refresh_token" with
    | some rt =>
      by_cases hok : env.refreshOk
      · by_cases hlt : env.retryStatus < 400
        · simp [hrt, hok, hlt]
        · simp [hrt, hok, hlt, interceptor_second_pass]
      · simp [hrt, hok]
    | none => simp [hrt]
  · simp

/-- Helper: first 401, refresh succeeds, retried request 401s again — the
second 401 re-enters the interceptor with `_retry = true` and is rejected
with no further refresh, so the whole exchange makes exactly one refresh
call and rejects. -/
theorem interceptor_first401_refresh_ok_retry401 (env : ServerEnv) (st : LStorage)
    (rt : String)
    (hrt : st "refresh_token" = some rt)
    (hok : env.refreshOk = true)
    (hretry : env.retryStatus = 401) :
    responseInterceptorOnError env 401 false st =
      { result := .rejected
        store := lsSetItem st "access_token" env.newAccessToken
        refreshCalls := 1
        redirectedToLogin := false } := by
  unfold responseInterceptorOnError
  simp [hrt, hok, hretry, interceptor_second_pass]

/-- Helper: first 401 with no stored refresh token — the three auth keys are
removed and the browser is sent to `/login`, with no refresh call. -/
theorem interceptor_first401_no_refresh_token (env : ServerEnv) (st : LStorage)
    (hrt : st "refresh_token" = none) :
    responseInterceptorOnError env 401 false st =
      { result := .rejected
        store := lsRemoveItem (lsRemoveItem (lsRemoveItem st "access_token") "refresh_token")
          "user_id"
        refreshCalls := 0
        redirectedToLogin := true } := by
  unfold responseInterceptorOnError
  simp [hrt]

/-- Helper: first 401 whose refresh call fails — the three auth keys are
removed and the browser is sent to `/login`, after the single failed
refresh call. -/
theorem interceptor_first401_refresh_fails (env : ServerEnv) (st : LStorage) (rt : String)
    (hrt : st "refresh_token" = some rt)
    (hok : env.refreshOk = false) :
    responseInterceptorOnError env 401 false st =
      { result := .rejected
        store := lsRemoveItem (lsRemoveItem (lsRemoveItem st "access_token") "refresh_token")
          "user_id"
        refreshCalls := 1
        redirectedToLogin := true } := by
  unfold responseInterceptorOnError
  simp [hrt, hok]

/-- Helper: removing the three auth keys touches no other key. -/
theorem remove3_frame (st : LStorage) (k : String)
    (h1 : k ≠ "access_token") (h2 : k ≠ "refresh_token") (h3 : k ≠ "user_id") :
    lsRemoveItem (lsRemoveItem (lsRemoveItem st "access_token") "refresh_token") "user_id" k =
      st k := by
  simp [lsRemoveItem, h1, h2, h3]

/-- Helper: after removal, each of the three auth keys is gone. -/
theorem remove3_removed (st : LStorage) :
    lsRemoveItem (lsRemoveItem (lsRemoveItem st "access_token") "refresh_token") "user_id"
        "access_token" = none ∧
    lsRemoveItem (lsRemoveItem (lsRemoveItem st "access_token") "refresh_token") "user_id"
        "refresh_token" = none ∧
    lsRemoveItem (lsRemoveItem (lsRemoveItem st "access_token") "refresh_token") "user_id"
        "user_id" = none := by
  refine ⟨?_, ?_, ?_⟩ <;> simp [lsRemoveItem]

/-! ### Claim theorems -/

/-- C2: token verification performs its three checks in a fixed order —
signature first (`InvalidSignature`), then expiry (`Expired` when
now ≥ expiry, regardless of the type), then the type discriminator
(`WrongTokenType`) — so a well-formed, unexpired refresh token presented
where an access token is expected is rejected for wrong token type, and
`authorize` rejects it with `Unauthorized`. -/
theorem C2_token_verification_order :
    ∀ (cfg : AuthConfig) (tok : Token) (expectedType : String) (now : Nat),
      (tok.sig ≠ signClaims cfg.secret tok.subjectId tok.tokenType tok.issuedAt tok.expiresAt →
        verifyToken cfg tok expectedType now = .error .InvalidSignature) ∧
      (tok.sig = signClaims cfg.secret tok.subjectId tok.tokenType tok.issuedAt tok.expiresAt →
        tok.expiresAt ≤ now →
        verifyToken cfg tok expectedType now = .error .Expired) ∧
      (tok.sig = signClaims cfg.secret tok.subjectId tok.tokenType tok.issuedAt tok.expiresAt →
        now < tok.expiresAt → tok.tokenType ≠ expectedType →
        verifyToken cfg tok expectedType now = .error .WrongTokenType) ∧
      (∀ sub iat, now < iat + cfg.refreshTokenTtl →
        verifyToken cfg (issueRefreshToken cfg sub iat) "access" now = .error .WrongTokenType ∧
        authorize cfg (issueRefreshToken cfg sub iat) now = .error .Unauthorized) :=
  fun cfg tok expectedType now =>
    ⟨verifyToken_badSig cfg tok expectedType now,
     verifyToken_expired cfg tok expectedType now,
     verifyToken_wrongType cfg tok expectedType now,
     fun sub iat hlt => verifyToken_refresh_as_access cfg sub iat now hlt⟩

/-- C2 witness: concrete instances — a tampered token fails with
`InvalidSignature` even though it is also expired and of the wrong type; a
correctly signed expired token fails with `Expired` even with a wrong type;
a fresh refresh token presented as an access token fails with
`WrongTokenType` and is `Unauthorized` for `authorize`. -/
theorem C2_token_verification_order_witness :
    verifyToken defaultConfig
        { subjectId := 1, tokenType := "refresh", issuedAt := 0, expiresAt := 0, sig := 0 }
        "access" 5 = .error .InvalidSignature ∧
    verifyToken defaultConfig (issueRefreshToken defaultConfig 1 0) "access" 604800 =
        .error .Expired ∧
    verifyToken defaultConfig (issueRefreshToken defaultConfig 1 0) "access" 5 =
        .error .WrongTokenType ∧
    authorize defaultConfig (issueRefreshToken defaultConfig 1 0) 5 = .error .Unauthorized := by
  refine ⟨?_, ?_, ?_, ?_⟩
  · exact (C2_token_verification_order defaultConfig
      { subjectId := 1, tokenType := "refresh", issuedAt := 0, expiresAt := 0, sig := 0 }
      "access" 5).1 (by decide)
  · exact (C2_token_verification_order defaultConfig (issueRefreshToken defaultConfig 1 0)
      "access" 604800).2.1 (by decide) (by decide)
  · exact ((C2_token_verification_order defaultConfig (issueRefreshToken defaultConfig 1 0)
      "access" 5).2.2.2 1 0 (by decide)).1
  · exact ((C2_token_verification_order defaultConfig (issueRefreshToken defaultConfig 1 0)
      "access" 5).2.2.2 1 0 (by decide)).2

/-- C4: `refresh(t)` succeeds iff `t` verifies as a `"refresh"` token; on
success it returns exactly one newly issued access token (the refresh token
is not rotated or reissued); on any verification failure — including a
valid access token presented to `refresh` — it fails with
`InvalidRefreshToken`. -/
theorem C4_refresh_behaviour :
    ∀ (cfg : AuthConfig) (tok : Token) (now : Nat),
      ((∃ sub, verifyToken cfg tok "refresh" now = .ok sub) ↔
        (∃ newTok, refreshTokenOp cfg tok now = .ok newTok)) ∧
      (∀ sub, verifyToken cfg tok "refresh" now = .ok sub →
        refreshTokenOp cfg tok now = .ok (issueAccessToken cfg sub now) ∧
        (issueAccessToken cfg sub now).tokenType = "access") ∧
      (∀ e, verifyToken cfg tok "refresh" now = .error e →
        refreshTokenOp cfg tok now = .error .InvalidRefreshToken) ∧
      (∀ sub iat, now < iat + cfg.accessTokenTtl →
        refreshTokenOp cfg (issueAccessToken cfg sub iat) now = .error .InvalidRefreshToken) :=
  fun cfg tok now =>
    ⟨refresh_iff_verify cfg tok now,
     fun sub h => refresh_ok_issues_access cfg tok now sub h,
     fun e h => refresh_err cfg tok now e h,
     fun sub iat hlt => refresh_rejects_access cfg now sub iat hlt⟩

/-- C4 witness: concretely, refreshing with a fresh refresh token issues the
expected access token, and presenting a fresh access token to `refresh`
fails with `InvalidRefreshToken`. -/
theorem C4_refresh_behaviour_witness :
    refreshTokenOp defaultConfig (issueRefreshToken defaultConfig 7 0) 100 =
        .ok (issueAccessToken defaultConfig 7 100) ∧
    refreshTokenOp defaultConfig (issueAccessToken defaultConfig 7 0) 100 =
        .error .InvalidRefreshToken := by
  constructor
  · exact ((C4_refresh_behaviour defaultConfig (issueRefreshToken defaultConfig 7 0) 100).2.1
      7 (by decide)).1
  · exact (C4_refresh_behaviour defaultConfig (issueAccessToken defaultConfig 7 0) 100).2.2.2
      7 0 (by decide)

/-- C8: for every plaintext and digest string, `verify` simply compares the
digest against the recomputed hash: it returns `false` for any digest that
is not a well-formed hash output (rather than throwing — it is a total
boolean function), and returns `true` exactly on the matching digest. -/
theorem C8_verify_total_on_malformed :
    ∀ (plaintext digest : String),
      ((∀ q, digest ≠ hash_password q) → verify_password plaintext digest = false) ∧
      (verify_password plaintext digest = true ↔ digest = hash_password plaintext) := by
  intro p d
  have hiff : verify_password p d = true ↔ d = hash_password p := by
    simp [verify_password]
  refine ⟨?_, hiff⟩
  intro h
  by_contra hb
  exact h p (hiff.mp (by revert hb; cases verify_password p d <;> simp))

/-- C8 witness: the empty string is not a hash output and `verify` returns
`false` on it; `verify` accepts the genuine digest. -/
theorem C8_verify_total_on_malformed_witness :
    verify_password "SomePassword1!" "" = false ∧
    verify_password "pw" (hash_password "pw") = true := by
  constructor
  · refine (C8_verify_total_on_malformed "SomePassword1!" "").1 ?_
    intro q hq
    have hlen := congrArg String.length hq
    rw [hash_password] at hlen
    rw [String.length_append] at hlen
    have h7 : ("$2b$12$" : String).length = 7 := by decide
    rw [h7] at hlen
    have h0 : ("" : String).length = 0 := by decide
    rw [h0] at hlen
    omega
  · exact (C8_verify_total_on_malformed "pw" (hash_password "pw")).2.mpr rfl

/-- C1: for an `Open` account, the failed attempt that brings the counter to
the threshold locks the account with lockout-expiry = now + lockoutDuration;
in particular (defaults: threshold 5, duration 30 min), after five
consecutive wrong-password logins alice's account is `Locked` until
second 1814, and a sixth attempt with the correct password still fails with
`AccountLocked`. -/
theorem C1_lockout_on_reaching_threshold :
    (∀ (cfg : AuthConfig) (store : Store) (now : Nat)
        (email wrongPassword : String) (acct : Account),
      findAccount store (normalizeEmail email) = some acct →
      acct.lockedUntil = none →
      acct.failedLoginAttempts + 1 = cfg.lockoutThreshold →
      verify_password wrongPassword acct.passwordHash = false →
      (login cfg store now email wrongPassword).outcome = .error .InvalidCredentials ∧
      (login cfg store now email wrongPassword).store =
        updateAccount store (normalizeEmail email)
          { acct with failedLoginAttempts := cfg.lockoutThreshold
                      lockedUntil := some (now + cfg.lockoutDuration)
                      lastFailedLogin := some now }) ∧
    defaultConfig.lockoutThreshold = 5 ∧
    defaultConfig.lockoutDuration = 1800 ∧
    findAccount aliceAfter5Fails "alice@example.com" = some acctAliceLocked ∧
    acctAliceLocked.failedLoginAttempts = 5 ∧
    acctAliceLocked.lockedUntil = some (14 + 1800) ∧
    (login defaultConfig aliceAfter5Fails 20 "alice@example.com" "Secur3Pass!").outcome =
      .error (.AccountLocked 1794) := by
  refine ⟨?_, by decide, by decide, by decide, by decide, by decide, by decide⟩
  intro cfg store now email wrongPassword acct hfind hnone hcount hpw
  exact login_threshold_locks cfg store now email wrongPassword acct hfind hnone hcount hpw

/-- C1 witness: alice's fifth consecutive failed attempt (counter 4 → 5) at
second 14 locks the account until second 1814. -/
theorem C1_lockout_on_reaching_threshold_witness :
    (login defaultConfig aliceAfter4Fails 14 "alice@example.com" "wrongPW").outcome =
      .error .InvalidCredentials ∧
    (login defaultConfig aliceAfter4Fails 14 "alice@example.com" "wrongPW").store =
      updateAccount aliceAfter4Fails (normalizeEmail "alice@example.com")
        { acctAlice4 with failedLoginAttempts := defaultConfig.lockoutThreshold
                          lockedUntil := some (14 + defaultConfig.lockoutDuration)
                          lastFailedLogin := some 14 } :=
  C1_lockout_on_reaching_threshold.1 defaultConfig aliceAfter4Fails 14
    "alice@example.com" "wrongPW" acctAlice4 (by decide) (by decide) (by decide) (by decide)

/-- C3: login with a non-existent email and login with an existing email but
a wrong password both fail with the same `InvalidCredentials`; the
missing-account run performs exactly one (dummy-digest) hash comparison,
just like the wrong-password run, and leaves the store unchanged. -/
theorem C3_invalid_credentials_indistinguishable :
    ∀ (cfg : AuthConfig) (store : Store) (now : Nat)
      (missingEmail presentEmail anyPassword wrongPassword : String) (acct : Account),
      findAccount store (normalizeEmail missingEmail) = none →
      findAccount store (normalizeEmail presentEmail) = some acct →
      isLocked acct now = false →
      verify_password wrongPassword acct.passwordHash = false →
      login cfg store now missingEmail anyPassword =
        { outcome := .error .InvalidCredentials, store := store, hashComparisons := 1 } ∧
      (login cfg store now presentEmail wrongPassword).outcome = .error .InvalidCredentials ∧
      (login cfg store now presentEmail wrongPassword).hashComparisons = 1 ∧
      (login cfg store now missingEmail anyPassword).outcome =
        (login cfg store now presentEmail wrongPassword).outcome := by
  intro cfg store now missingEmail presentEmail anyPassword wrongPassword acct
    hmiss hfind hnl hpw
  have h1 := login_missing_email cfg store now missingEmail anyPassword hmiss
  have h2 := login_wrong_password cfg store now presentEmail wrongPassword acct hfind hnl hpw
  refine ⟨h1, h2.1, h2.2, ?_⟩
  rw [h1, h2.1]

/-- C3 witness: concretely, logging in as unregistered bob and as registered
alice with a wrong password produce identical `InvalidCredentials` results,
each after exactly one hash comparison. -/
theorem C3_invalid_credentials_indistinguishable_witness :
    login defaultConfig aliceRegistered 5 "bob@example.com" "AnyPass1!" =
      { outcome := .error .InvalidCredentials, store := aliceRegistered
        hashComparisons := 1 } ∧
    (login defaultConfig aliceRegistered 5 " Alice@Example.COM " "WrongPass1!").outcome =
      .error .InvalidCredentials ∧
    (login defaultConfig aliceRegistered 5 " Alice@Example.COM " "WrongPass1!").hashComparisons = 1 ∧
    (login defaultConfig aliceRegistered 5 "bob@example.com" "AnyPass1!").outcome =
      (login defaultConfig aliceRegistered 5 " Alice@Example.COM " "WrongPass1!").outcome :=
  C3_invalid_credentials_indistinguishable defaultConfig aliceRegistered 5
    "bob@example.com" " Alice@Example.COM " "AnyPass1!" "WrongPass1!" acctAlice0
    (by decide) (by decide) (by decide) (by decide)

/-- C5: once the injected clock reaches the lockout-expiry, a locked account
is treated as `Open` again: the next correct-password login succeeds
(issuing both tokens for the account's subject id) and stores the account
with the failed-login counter reset to 0 and the expiry cleared — release is
a pure function of the stored timestamp and the clock, with no timer. -/
theorem C5_lockout_expiry_releases :
    ∀ (cfg : AuthConfig) (store : Store) (now : Nat)
      (email password : String) (acct : Account) (t : Nat),
      findAccount store (normalizeEmail email) = some acct →
      acct.lockedUntil = some t →
      t ≤ now →
      verify_password password acct.passwordHash = true →
      (login cfg store now email password).outcome =
        .ok { accessToken := issueAccessToken cfg acct.id now
              refreshToken := issueRefreshToken cfg acct.id now
              userId := acct.id } ∧
      (login cfg store now email password).store =
        updateAccount store (normalizeEmail email)
          { acct with failedLoginAttempts := 0, lockedUntil := none } :=
  fun cfg store now email password acct t hfind hlock hexp hpw =>
    login_expired_lock_success cfg store now email password acct t hfind hlock hexp hpw

/-- C5 witness: at second 1814 (= alice's lockout-expiry) the
correct-password login succeeds and resets the counter to 0. -/
theorem C5_lockout_expiry_releases_witness :
    (login defaultConfig aliceAfter5Fails 1814 "alice@example.com" "Secur3Pass!").outcome =
      .ok { accessToken := issueAccessToken defaultConfig 0 1814
            refreshToken := issueRefreshToken defaultConfig 0 1814
            userId := 0 } ∧
    (login defaultConfig aliceAfter5Fails 1814 "alice@example.com" "Secur3Pass!").store =
      updateAccount aliceAfter5Fails (normalizeEmail "alice@example.com")
        { acctAliceLocked with failedLoginAttempts := 0, lockedUntil := none } :=
  C5_lockout_expiry_releases defaultConfig aliceAfter5Fails 1814
    "alice@example.com" "Secur3Pass!" acctAliceLocked 1814
    (by decide) (by decide) (by decide) (by decide)

/-- C6: a login attempt on a `Locked` account (now < lockout-expiry) is
rejected with `AccountLocked` (remaining time) immediately: the password is
never verified (zero hash comparisons) and the store — in particular the
failed-login counter — is left completely unchanged. -/
theorem C6_locked_login_no_side_effects :
    ∀ (cfg : AuthConfig) (store : Store) (now : Nat)
      (email password : String) (acct : Account) (t : Nat),
      findAccount store (normalizeEmail email) = some acct →
      acct.lockedUntil = some t →
      now < t →
      login cfg store now email password =
        { outcome := .error (.AccountLocked (t - now)), store := store
          hashComparisons := 0 } :=
  fun cfg store now email password acct t hfind hlock hnow =>
    login_locked cfg store now email password acct t hfind hlock hnow

/-- C6 witness: while alice is locked (second 20 < 1814), even the correct
password is rejected with `AccountLocked 1794`, without hashing and without
touching the store. -/
theorem C6_locked_login_no_side_effects_witness :
    login defaultConfig aliceAfter5Fails 20 "alice@example.com" "Secur3Pass!" =
      { outcome := .error (.AccountLocked 1794), store := aliceAfter5Fails
        hashComparisons := 0 } :=
  C6_locked_login_no_side_effects defaultConfig aliceAfter5Fails 20
    "alice@example.com" "Secur3Pass!" acctAliceLocked 1814
    (by decide) (by decide) (by decide)

/-- C7: `register` normalizes the email; it fails with `DuplicateAccount` if
the normalized email is present, fails with `WeakPassword` if the password
does not meet the configured policy, and otherwise hashes the password and
creates an account with failed-login counter 0 and no lockout-expiry. -/
theorem C7_register_behaviour :
    ∀ (cfg : AuthConfig) (store : Store) (now : Nat) (email password : String),
      (∀ acct, findAccount store (normalizeEmail email) = some acct →
        register cfg store now email password = (.error .DuplicateAccount, store)) ∧
      (findAccount store (normalizeEmail email) = none →
        meetsPasswordPolicy cfg password = false →
        register cfg store now email password = (.error .WeakPassword, store)) ∧
      (findAccount store (normalizeEmail email) = none →
        meetsPasswordPolicy cfg password = true →
        register cfg store now email password =
          (.ok (registeredAccount store now email password),
           registeredAccount store now email password :: store)) ∧
      (registeredAccount store now email password).email = normalizeEmail email ∧
      (registeredAccount store now email password).passwordHash = hash_password password ∧
      (registeredAccount store now email password).failedLoginAttempts = 0 ∧
      (registeredAccount store now email password).lockedUntil = none := by
  intro cfg store now email password
  refine ⟨?_, ?_, ?_, rfl, rfl, rfl, rfl⟩
  · intro acct hfind
    exact register_duplicate cfg store now email password acct hfind
  · intro hmiss hpol
    exact register_weak cfg store now email password hmiss hpol
  · intro hmiss hpol
    exact register_success cfg store now email password hmiss hpol

/-- C7 witness: concrete registrations — a fresh mixed-case email is stored
normalized with counter 0 and no lockout-expiry; a password without special
characters is rejected as weak; a case-variant of alice's email is rejected
as a duplicate. -/
theorem C7_register_behaviour_witness :
    register defaultConfig [] 0 " Alice@Example.COM " "Secur3Pass!" =
      (.ok (registeredAccount [] 0 " Alice@Example.COM " "Secur3Pass!"),
       registeredAccount [] 0 " Alice@Example.COM " "Secur3Pass!" :: []) ∧
    (registeredAccount [] 0 " Alice@Example.COM " "Secur3Pass!").email = "alice@example.com" ∧
    register defaultConfig [] 0 "bob@example.com" "NoSpecial123" =
      (.error .WeakPassword, []) ∧
    register defaultConfig aliceRegistered 7 "ALICE@example.com" "Other3Pass!" =
      (.error .DuplicateAccount, aliceRegistered) := by
  refine ⟨?_, by decide, ?_, ?_⟩
  · exact (C7_register_behaviour defaultConfig [] 0 " Alice@Example.COM " "Secur3Pass!").2.2.1
      (by decide) (by decide)
  · exact (C7_register_behaviour defaultConfig [] 0 "bob@example.com" "NoSpecial123").2.1
      (by decide) (by decide)
  · exact (C7_register_behaviour defaultConfig aliceRegistered 7 "ALICE@example.com"
      "Other3Pass!").1 acctAlice0 (by decide)

/-- C9: `decodeToken` is total, returning the parsed payload or `null` and
never throwing: a null (or empty) token, a token without exactly three
dot-separated parts, an empty payload part, and an undecodable payload all
yield `null`; the result depends only on the payload part, never on the
signature part (no signature check on the client); and `isAuthenticated` is
false whenever the stored access token is absent, undecodable, or carries an
`exp` not greater than the current time. -/
theorem C9_decodeToken_total_and_isAuthenticated :
    decodeToken none = none ∧
    decodeToken (some "") = none ∧
    (∀ t : String, t.data ≠ [] →
      (splitOnDot (stripBearerChars t.data)).length ≠ 3 →
      decodeToken (some t) = none) ∧
    (∀ (t : String) (h s : List Char), t.data ≠ [] →
      splitOnDot (stripBearerChars t.data) = [h, [], s] →
      decodeToken (some t) = none) ∧
    decodeToken (some "a.!!!.c") = none ∧
    (∀ (t t' : String) (h h' p s s' : List Char),
      t.data ≠ [] → t'.data ≠ [] →
      splitOnDot (stripBearerChars t.data) = [h, p, s] →
      splitOnDot (stripBearerChars t'.data) = [h', p, s'] →
      decodeToken (some t) = decodeToken (some t')) ∧
    (∀ (store : LStorage) (now : Int), store "access_token" = none →
      isAuthenticated store now = false) ∧
    (∀ (store : LStorage) (now : Int) (token : String),
      store "access_token" = some token → decodeToken (some token) = none →
      isAuthenticated store now = false) ∧
    (∀ (store : LStorage) (now : Int) (token : String) (payload : JwtPayload) (e : Int),
      store "access_token" = some token → decodeToken (some token) = some payload →
      payload.exp = some e → e ≤ now →
      isAuthenticated store now = false) := by
  refine ⟨rfl, rfl, ?_, ?_, by decide, ?_, ?_, ?_, ?_⟩
  · exact decode_not_three_parts
  · exact decode_empty_payload
  · intro t t' h h' p s s' h1 h1' hsplit hsplit'
    rw [decode_split3 t h p s h1 hsplit, decode_split3 t' h' p s' h1' hsplit']
  · exact iA_no_token
  · exact iA_undecodable
  · exact iA_expired

/-- C9 witness: concrete instances — a dotless token, an empty payload
part, two tokens differing only in the signature part, a store with no
access token, a store with an undecodable token, and a store with a token
whose `exp` (123) is not greater than the current time (200). -/
theorem C9_decodeToken_total_and_isAuthenticated_witness :
    decodeToken (some "abc") = none ∧
    decodeToken (some "a..b") = none ∧
    decodeToken (some "x.e30.y") = decodeToken (some "x.e30.z") ∧
    isAuthenticated (singleStore "theme" "dark") 0 = false ∧
    isAuthenticated (singleStore "access_token" "garbage") 0 = false ∧
    isAuthenticated
      (singleStore "access_token" "aaa.eyJzdWIiOiIxIiwiZXhwIjoxMjN9.sig") 200 = false := by
  obtain ⟨-, -, h3, h4, -, h6, h7, h8, h9⟩ := C9_decodeToken_total_and_isAuthenticated
  refine ⟨?_, ?_, ?_, ?_, ?_, ?_⟩
  · exact h3 "abc" (by decide) (by decide)
  · exact h4 "a..b" ['a'] ['b'] (by decide) (by decide)
  · exact h6 "x.e30.y" "x.e30.z" ['x'] ['x'] ['e', '3', '0'] ['y'] ['z']
      (by decide) (by decide) (by decide) (by decide)
  · exact h7 (singleStore "theme" "dark") 0 (by decide)
  · exact h8 (singleStore "access_token" "garbage") 0 "garbage" (by decide) (by decide)
  · exact h9 (singleStore "access_token" "aaa.eyJzdWIiOiIxIiwiZXhwIjoxMjN9.sig") 200
      "aaa.eyJzdWIiOiIxIiwiZXhwIjoxMjN9.sig"
      { sub := some "1", exp := some 123, user_id := none } 123
      (by decide) (by decide) (by decide) (by decide)

/-- C10: the response interceptor refreshes at most once per request
(guarded by the `_retry` flag): a 401 on the retried request is rejected
without another refresh attempt, so the interceptor never loops; and when no
refresh token is stored or the refresh call fails, exactly the three keys
`access_token`, `refresh_token` and `user_id` are removed before the
redirect to `/login`. -/
theorem C10_interceptor_single_refresh :
    ∀ (env : ServerEnv) (status : Nat) (retry : Bool) (st : LStorage) (rt : String),
      (responseInterceptorOnError env status retry st).refreshCalls ≤ 1 ∧
      responseInterceptorOnError env 401 true st =
        { result := .rejected, store := st, refreshCalls := 0
          redirectedToLogin := false } ∧
      (st "refresh_token" = some rt → env.refreshOk = true → env.retryStatus = 401 →
        responseInterceptorOnError env 401 false st =
          { result := .rejected
            store := lsSetItem st "access_token" env.newAccessToken
            refreshCalls := 1
            redirectedToLogin := false }) ∧
      (st "refresh_token" = none →
        responseInterceptorOnError env 401 false st =
          { result := .rejected
            store := lsRemoveItem
              (lsRemoveItem (lsRemoveItem st "access_token") "refresh_token") "user_id"
            refreshCalls := 0
            redirectedToLogin := true }) ∧
      (st "refresh_token" = some rt → env.refreshOk = false →
        responseInterceptorOnError env 401 false st =
          { result := .rejected
            store := lsRemoveItem
              (lsRemoveItem (lsRemoveItem st "access_token") "refresh_token") "user_id"
            refreshCalls := 1
            redirectedToLogin := true }) ∧
      (∀ k, k ≠ "access_token" → k ≠ "refresh_token" → k ≠ "user_id" →
        lsRemoveItem (lsRemoveItem (lsRemoveItem st "access_token") "refresh_token")
          "user_id" k = st k) ∧
      lsRemoveItem (lsRemoveItem (lsRemoveItem st "access_token") "refresh_token") "user_id"
        "access_token" = none ∧
      lsRemoveItem (lsRemoveItem (lsRemoveItem st "access_token") "refresh_token") "user_id"
        "refresh_token" = none ∧
      lsRemoveItem (lsRemoveItem (lsRemoveItem st "access_token") "refresh_token") "user_id"
        "user_id" = none := by
  intro env status retry st rt
  obtain ⟨r1, r2, r3⟩ := remove3_removed st
  exact ⟨interceptor_refresh_at_most_once env status retry st,
    interceptor_second_pass env 401 st,
    fun hrt hok hretry => interceptor_first401_refresh_ok_retry401 env st rt hrt hok hretry,
    fun hrt => interceptor_first401_no_refresh_token env st hrt,
    fun hrt hok => interceptor_first401_refresh_fails env st rt hrt hok,
    fun k h1 h2 h3 => remove3_frame st k h1 h2 h3,
    r1, r2, r3⟩

/-- C10 witness: concrete runs — refresh succeeds but the retried request
401s again: exactly one refresh call and a rejection; no stored refresh
token: zero refresh calls, the three auth keys removed, an unrelated key
kept, and a redirect to `/login`. -/
theorem C10_interceptor_single_refresh_witness :
    (responseInterceptorOnError
        { refreshOk := true, newAccessToken := "newTok", retryStatus := 401 }
        401 false (singleStore "refresh_token" "rt")).refreshCalls = 1 ∧
    (responseInterceptorOnError
        { refreshOk := true, newAccessToken := "newTok", retryStatus := 401 }
        401 false (singleStore "refresh_token" "rt")).result = .rejected ∧
    (responseInterceptorOnError
        { refreshOk := true, newAccessToken := "newTok", retryStatus := 401 }
        401 false (singleStore "theme" "dark")).refreshCalls = 0 ∧
    (responseInterceptorOnError
        { refreshOk := true, newAccessToken := "newTok", retryStatus := 401 }
        401 false (singleStore "theme" "dark")).redirectedToLogin = true ∧
    (responseInterceptorOnError
        { refreshOk := true, newAccessToken := "newTok", retryStatus := 401 }
        401 false (singleStore "theme" "dark")).store "user_id" = none ∧
    (responseInterceptorOnError
        { refreshOk := true, newAccessToken := "newTok", retryStatus := 401 }
        401 false (singleStore "theme" "dark")).store "theme" = some "dark" := by
  have h := C10_interceptor_single_refresh
    { refreshOk := true, newAccessToken := "newTok", retryStatus := 401 }
    401 false (singleStore "refresh_token" "rt") "rt"
  have hmain := h.2.2.1 (by decide) rfl rfl
  have h' := C10_interceptor_single_refresh
    { refreshOk := true, newAccessToken := "newTok", retryStatus := 401 }
    401 false (singleStore "theme" "dark") "rt"
  have hnone := h'.2.2.2.1 (by decide)
  refine ⟨?_, ?_, ?_, ?_, ?_, ?_⟩
  · rw [hmain]
  · rw [hmain]
  · rw [hnone]
  · rw [hnone]
  · rw [hnone]
    exact h'.2.2.2.2.2.2.2.2
  · rw [hnone]
    exact h'.2.2.2.2.2.1 "theme" (by decide) (by decide) (by decide)
